import Mathlib

/-!
Verification development for the MCC Market Context API (`src/main.py`).

Shallow embedding conventions:
* Prices are modelled as rationals (`ℚ`); the Python code uses IEEE floats,
  but every claim under consideration is about order comparisons and exact
  arithmetic on small decimal values, where the two agree.
* An OHLCV bar `c` is consumed by the code only through `c[2]` (high),
  `c[3]` (low) and `c[4]` (close); `Candle` carries exactly those fields.
* Python built-ins `max`/`min` over a non-empty sequence are embedded as
  recursive `maxList`/`minList` (the value on `[]` is irrelevant: Python
  raises there, and every theorem about that case assumes non-emptiness).
* `statistics.median` sorts the data and takes the middle element (odd
  length) or the mean of the two middle elements (even length); `median`
  below mirrors that using `List.insertionSort`.
-/

/-- One OHLCV bar, restricted to the fields the code reads:
`c[2]` = high, `c[3]` = low, `c[4]` = close. -/
structure Candle where
  high : ℚ
  low : ℚ
  close : ℚ
deriving DecidableEq

/-- `ObZone` pydantic model: type, from_, to, state (the `to` field is
spelled `to_` because `to` is reserved in Lean). -/
structure ObZone where
  type : String
  from_ : ℚ
  to_ : ℚ
  state : String
deriving DecidableEq

/-- `FvgZone` pydantic model (`to` spelled `to_`). -/
structure FvgZone where
  from_ : ℚ
  to_ : ℚ
  state : String
deriving DecidableEq

/-- `LiquidityLevel` pydantic model. -/
structure LiquidityLevel where
  type : String
  price : ℚ
deriving DecidableEq

/-- `CoinglassCluster` pydantic model: side, price, size_usd. -/
structure CoinglassCluster where
  side : String
  price : ℚ
  size_usd : ℚ
deriving DecidableEq

/-- `TimeframeContext` pydantic model; optional fields default to `none`,
list fields default to `[]`, exactly as in the pydantic declaration. -/
structure TimeframeContext where
  bias : Option String := none
  trend : Option String := none
  bos : Option String := none
  swing_high : Option ℚ := none
  swing_low : Option ℚ := none
  midline_50 : Option ℚ := none
  ob_zones : List ObZone := []
  fvg_zones : List FvgZone := []
  micro_liquidity : List LiquidityLevel := []
  current_price : Option ℚ := none
deriving DecidableEq

/-- `CoinglassLevels` pydantic model: buckets N1, N2, N3. -/
structure CoinglassLevels where
  N1 : List CoinglassCluster := []
  N2 : List CoinglassCluster := []
  N3 : List CoinglassCluster := []
deriving DecidableEq

/-- `CoinglassData` pydantic model. -/
structure CoinglassData where
  heatmap : CoinglassLevels
  liquidations : CoinglassLevels
deriving DecidableEq

/-- The dict returned by `detect_structure_and_liquidity`, which always has
exactly the four keys "1D", "4H", "1H", "15m". -/
structure StructureResult where
  tf1D : TimeframeContext
  tf4H : TimeframeContext
  tf1H : TimeframeContext
  tf15m : TimeframeContext
deriving DecidableEq

/-- Python `max` over a sequence (the empty case raises in Python;
the `0` default here is never relied upon). -/
def maxList : List ℚ → ℚ
  | [] => 0
  | [x] => x
  | x :: y :: xs => max x (maxList (y :: xs))

/-- Python `min` over a sequence (same convention as `maxList`). -/
def minList : List ℚ → ℚ
  | [] => 0
  | [x] => x
  | x :: y :: xs => min x (minList (y :: xs))

/-- `statistics.median`: sort, then middle element (odd length) or mean of
the two middle elements (even length). Python raises on `[]`; here the
`[]` case returns `0` and is never relied upon. -/
def median (l : List ℚ) : ℚ :=
  let s := List.insertionSort (· ≤ ·) l
  let n := l.length
  if n % 2 = 1 then s.getD (n / 2) 0
  else (s.getD (n / 2 - 1) 0 + s.getD (n / 2) 0) / 2

/-- Python substring test `needle in hay`, on character lists. -/
def isInfixB (p : List Char) : List Char → Bool
  | [] => p.isEmpty
  | c :: cs => p.isPrefixOf (c :: cs) || isInfixB p cs

/-- `ohlcv_15m[-1][4]`: close of the last 15m candle (raises on `[]` in
Python; the `0` default is never relied upon). -/
def latest_price (ohlcv_15m : List Candle) : ℚ :=
  match ohlcv_15m.getLast? with
  | some c => c.close
  | none => 0

/-- `max(c[2] for c in ohlcv_1d)`. -/
def swing_high (ohlcv_1d : List Candle) : ℚ :=
  maxList (ohlcv_1d.map Candle.high)

/-- `min(c[3] for c in ohlcv_1d)`. -/
def swing_low (ohlcv_1d : List Candle) : ℚ :=
  minList (ohlcv_1d.map Candle.low)

/-- `midline = (swing_high + swing_low) / 2`. -/
def midline (ohlcv_1d : List Candle) : ℚ :=
  (swing_high ohlcv_1d + swing_low ohlcv_1d) / 2

/-- `median_4h = statistics.median([c[4] for c in ohlcv_4h])`. -/
def median_4h (ohlcv_4h : List Candle) : ℚ :=
  median (ohlcv_4h.map Candle.close)

/-- `trend_val = "bullish_HH_HL" if latest_price > median_4h else "bearish_LH_LL"`. -/
def trend_val (ohlcv_4h ohlcv_15m : List Candle) : String :=
  if latest_price ohlcv_15m > median_4h ohlcv_4h then "bullish_HH_HL"
  else "bearish_LH_LL"

/-- `bias = "discount_LONG" if latest_price < midline else "premium_SHORT"`. -/
def bias (ohlcv_1d ohlcv_15m : List Candle) : String :=
  if latest_price ohlcv_15m < midline ohlcv_1d then "discount_LONG"
  else "premium_SHORT"

/-- `"up" if "bullish" in trend_val else "down"` (computed afresh in each
of the four timeframe contexts, always from the same `trend_val`). -/
def bosOf (tv : String) : String :=
  if isInfixB "bullish".toList tv.toList then "up" else "down"

/-- `detect_structure_and_liquidity(ohlcv_1d, ohlcv_4h, ohlcv_1h, ohlcv_15m)`:
the pure structure detector, returning the four timeframe contexts keyed
"1D", "4H", "1H", "15m". The `ohlcv_1h` argument is accepted and unused,
as in the source. -/
def detect_structure_and_liquidity
    (ohlcv_1d ohlcv_4h _ohlcv_1h ohlcv_15m : List Candle) : StructureResult :=
  let lp := latest_price ohlcv_15m
  let sh := swing_high ohlcv_1d
  let sl := swing_low ohlcv_1d
  let ml := midline ohlcv_1d
  let tv := trend_val ohlcv_4h ohlcv_15m
  let b := bias ohlcv_1d ohlcv_15m
  { tf1D :=
      { bias := some b, trend := some tv, bos := some (bosOf tv),
        swing_high := some sh, swing_low := some sl, midline_50 := some ml,
        current_price := some lp }
    tf4H :=
      { bos := some (bosOf tv),
        ob_zones := [⟨"bullish", ml * (98/100), ml * (102/100), "decisional"⟩],
        fvg_zones := [⟨ml * (101/100), ml * (102/100), "active"⟩] }
    tf1H :=
      { bos := some (bosOf tv),
        ob_zones := [⟨"bullish", lp * (995/1000), lp * (1005/1000), "fresh"⟩],
        fvg_zones := [⟨lp * (1002/1000), lp * (1004/1000), "valid"⟩] }
    tf15m :=
      { current_price := some lp, bos := some (bosOf tv),
        micro_liquidity :=
          [⟨"EQH", lp * (1005/1000)⟩, ⟨"EQL", lp * (995/1000)⟩] } }

/-- A JSON field value as seen by the per-entry parsing in
`fetch_coinglass_clusters`. `num q` stands for any value on which Python's
`float(...)` succeeds with result `q` (ints, floats, numeric strings);
`str s` is a string on which `float` raises; `null` is JSON null
(Python `None`, on which `float` raises). -/
inductive JVal where
  | num (q : ℚ)
  | str (s : String)
  | null
deriving DecidableEq

/-- A heatmap entry dict, restricted to the three keys the code reads.
`none` means the key is absent (`i.get` returns its default). -/
structure Entry where
  side : Option JVal := none
  price : Option JVal := none
  size : Option JVal := none
deriving DecidableEq

/-- Python `float(v)`: succeeds exactly on numeric-convertible values. -/
def floatOf : JVal → Option ℚ
  | .num q => some q
  | .str _ => none
  | .null => none

/-- `"short" if i.get("side")=="short" else "long"`: never raises; a missing
or non-"short" side yields "long". -/
def sideOf (e : Entry) : String :=
  match e.side with
  | some (.str "short") => "short"
  | _ => "long"

/-- One iteration of the `for i in data[:3]` loop body:
`CoinglassCluster(side=..., price=float(i.get("price",0)), size_usd=float(i.get("size",0)))`
wrapped in `try/except`. `none` means the iteration raised and the entry
was skipped. -/
def parseEntry (e : Entry) : Option CoinglassCluster :=
  match floatOf (e.price.getD (.num 0)), floatOf (e.size.getD (.num 0)) with
  | some p, some s => some ⟨sideOf e, p, s⟩
  | _, _ => none

/-- `True` exactly when the loop body does not raise on `e`:
the price and size values (defaulting to `0` when the key is missing)
both convert with `float`. -/
def validEntry (e : Entry) : Bool :=
  (floatOf (e.price.getD (.num 0))).isSome && (floatOf (e.size.getD (.num 0))).isSome

/-- The cluster the loop body appends for a non-raising entry. -/
def entryCluster (e : Entry) : CoinglassCluster :=
  ⟨sideOf e, (floatOf (e.price.getD (.num 0))).getD 0,
    (floatOf (e.size.getD (.num 0))).getD 0⟩

/-- The outcome of the guarded HTTP call in `fetch_coinglass_clusters`:
`exn` when `client.get` or `r.json()` raises (both are inside the same
`try`), `ok status data` when the call returned with the given status and
the body parsed to the given `data` list (`[]` when the "data" key is
absent). -/
inductive HttpResult where
  | exn
  | ok (status : Nat) (data : List Entry)
deriving DecidableEq

/-- `fetch_coinglass_clusters(symbol)`, with the network interaction
reified as an `HttpResult` argument. `data` is `[]` on exception or
non-200 status; the loop takes `data[:3]`, skips raising entries, and the
result always has `heatmap.N3 = clusters` and every other bucket empty.
The `symbol` parameter only feeds the request URL
(`symbol.replace("/","").upper()`), never the returned value. -/
def fetch_coinglass_clusters (_symbol : String) (r : HttpResult) : CoinglassData :=
  let data := match r with
    | .exn => []
    | .ok status d => if status = 200 then d else []
  let clusters := (data.take 3).filterMap parseEntry
  { heatmap := { N3 := clusters },
    liquidations := { N3 := [] } }

/-- `detect_session`, as a pure function of the current UTC hour
`h = datetime.datetime.utcnow().hour`:
`"NY" if 12<=h<20 else "LDN" if 7<=h<12 else "ASIA"`. -/
def detect_session (h : Nat) : String :=
  if 12 ≤ h ∧ h < 20 then "NY"
  else if 7 ≤ h ∧ h < 12 then "LDN"
  else "ASIA"

/-! ## Helper lemmas -/

theorem le_maxList {x : ℚ} : ∀ {l : List ℚ}, x ∈ l → x ≤ maxList l := by
  intro l
  induction l with
  | nil => intro h; cases h
  | cons a t ih =>
    intro hx
    cases t with
    | nil =>
      have hxa : x = a := by simpa using hx
      simp [maxList, hxa]
    | cons b u =>
      rcases List.mem_cons.mp hx with h | h
      · subst h; simp [maxList]
      · calc x ≤ maxList (b :: u) := ih h
          _ ≤ maxList (a :: b :: u) := by simp [maxList]

theorem minList_le {x : ℚ} : ∀ {l : List ℚ}, x ∈ l → minList l ≤ x := by
  intro l
  induction l with
  | nil => intro h; cases h
  | cons a t ih =>
    intro hx
    cases t with
    | nil =>
      have hxa : x = a := by simpa using hx
      simp [minList, hxa]
    | cons b u =>
      rcases List.mem_cons.mp hx with h | h
      · subst h; simp [minList]
      · calc minList (a :: b :: u) ≤ minList (b :: u) := by simp [minList]
          _ ≤ x := ih h

theorem swing_low_le_swing_high {d : List Candle}
    (hwf : ∀ c ∈ d, c.low ≤ c.high) (hne : d ≠ []) :
    swing_low d ≤ swing_high d := by
  obtain ⟨c, t, rfl⟩ := List.exists_cons_of_ne_nil hne
  have h1 : minList ((c :: t).map Candle.low) ≤ c.low :=
    minList_le (by simp)
  have h2 : c.high ≤ maxList ((c :: t).map Candle.high) :=
    le_maxList (by simp)
  have h3 : c.low ≤ c.high := hwf c (by simp)
  calc swing_low (c :: t) ≤ c.low := h1
    _ ≤ c.high := h3
    _ ≤ swing_high (c :: t) := h2

theorem parseEntry_eq (e : Entry) :
    parseEntry e = if validEntry e then some (entryCluster e) else none := by
  unfold parseEntry validEntry entryCluster
  cases hp : floatOf (e.price.getD (.num 0)) <;>
    cases hs : floatOf (e.size.getD (.num 0)) <;> simp

theorem filterMap_parseEntry (l : List Entry) :
    l.filterMap parseEntry = (l.filter validEntry).map entryCluster := by
  induction l with
  | nil => rfl
  | cons e t ih =>
    by_cases h : validEntry e
    · simp [List.filterMap_cons, List.filter_cons, parseEntry_eq, h, ih]
    · simp [List.filterMap_cons, List.filter_cons, parseEntry_eq, h, ih]

/-! ## Claims -/

/-- C1: for well-formed candle sequences (low ≤ high in every candle) with a
non-empty daily sequence, the daily context's `swing_low`, `midline_50` and
`swing_high` returned by `detect_structure_and_liquidity` satisfy
`swing_low ≤ midline ≤ swing_high`, where `swing_high` is the maximum daily
high, `swing_low` the minimum daily low and `midline` their arithmetic mean. -/
theorem C1_swing_order (ohlcv_1d ohlcv_4h ohlcv_1h ohlcv_15m : List Candle)
    (h1 : ∀ c ∈ ohlcv_1d, c.low ≤ c.high)
    (h4 : ∀ c ∈ ohlcv_4h, c.low ≤ c.high)
    (hh : ∀ c ∈ ohlcv_1h, c.low ≤ c.high)
    (hm : ∀ c ∈ ohlcv_15m, c.low ≤ c.high)
    (hne : ohlcv_1d ≠ []) :
    (detect_structure_and_liquidity ohlcv_1d ohlcv_4h ohlcv_1h ohlcv_15m).tf1D.swing_high
        = some (maxList (ohlcv_1d.map Candle.high)) ∧
    (detect_structure_and_liquidity ohlcv_1d ohlcv_4h ohlcv_1h ohlcv_15m).tf1D.swing_low
        = some (minList (ohlcv_1d.map Candle.low)) ∧
    (detect_structure_and_liquidity ohlcv_1d ohlcv_4h ohlcv_1h ohlcv_15m).tf1D.midline_50
        = some ((swing_high ohlcv_1d + swing_low ohlcv_1d) / 2) ∧
    swing_low ohlcv_1d ≤ midline ohlcv_1d ∧
    midline ohlcv_1d ≤ swing_high ohlcv_1d := by
  have hsw : swing_low ohlcv_1d ≤ swing_high ohlcv_1d :=
    swing_low_le_swing_high h1 hne
  refine ⟨rfl, rfl, rfl, ?_, ?_⟩
  · unfold midline; linarith
  · unfold midline; linarith

/-- C1 witness: a concrete well-formed input. -/
theorem C1_swing_order_witness :
    (detect_structure_and_liquidity [⟨110, 90, 100⟩] [⟨98, 98, 98⟩] [] [⟨97, 97, 97⟩]).tf1D.swing_high
        = some (maxList ([(⟨110, 90, 100⟩ : Candle)].map Candle.high)) ∧
    (detect_structure_and_liquidity [⟨110, 90, 100⟩] [⟨98, 98, 98⟩] [] [⟨97, 97, 97⟩]).tf1D.swing_low
        = some (minList ([(⟨110, 90, 100⟩ : Candle)].map Candle.low)) ∧
    (detect_structure_and_liquidity [⟨110, 90, 100⟩] [⟨98, 98, 98⟩] [] [⟨97, 97, 97⟩]).tf1D.midline_50
        = some ((swing_high [⟨110, 90, 100⟩] + swing_low [⟨110, 90, 100⟩]) / 2) ∧
    swing_low [⟨110, 90, 100⟩] ≤ midline [⟨110, 90, 100⟩] ∧
    midline [⟨110, 90, 100⟩] ≤ swing_high [⟨110, 90, 100⟩] :=
  C1_swing_order [⟨110, 90, 100⟩] [⟨98, 98, 98⟩] [] [⟨97, 97, 97⟩]
    (by norm_num) (by norm_num) (by norm_num) (by norm_num) (by simp)

/-- C2: with non-empty 15m and daily sequences, the returned `bias` is
"discount_LONG" exactly when the last 15m close is strictly below the
midline, "premium_SHORT" otherwise, and a tie yields "premium_SHORT". -/
theorem C2_bias_rule (ohlcv_1d ohlcv_4h ohlcv_1h ohlcv_15m : List Candle)
    (hd : ohlcv_1d ≠ []) (hm : ohlcv_15m ≠ []) :
    ((detect_structure_and_liquidity ohlcv_1d ohlcv_4h ohlcv_1h ohlcv_15m).tf1D.bias
        = some "discount_LONG" ↔ latest_price ohlcv_15m < midline ohlcv_1d) ∧
    ((detect_structure_and_liquidity ohlcv_1d ohlcv_4h ohlcv_1h ohlcv_15m).tf1D.bias
        = some "premium_SHORT" ↔ ¬ latest_price ohlcv_15m < midline ohlcv_1d) ∧
    (latest_price ohlcv_15m = midline ohlcv_1d →
      (detect_structure_and_liquidity ohlcv_1d ohlcv_4h ohlcv_1h ohlcv_15m).tf1D.bias
        = some "premium_SHORT") := by
  have hb : (detect_structure_and_liquidity ohlcv_1d ohlcv_4h ohlcv_1h ohlcv_15m).tf1D.bias
      = some (bias ohlcv_1d ohlcv_15m) := rfl
  rw [hb]
  by_cases hlt : latest_price ohlcv_15m < midline ohlcv_1d
  · refine ⟨by simp [bias, hlt], by simp [bias, hlt], fun he => ?_⟩
    exact absurd he (by simpa using ne_of_lt hlt)
  · exact ⟨by simp [bias, hlt], by simp [bias, hlt], fun _ => by simp [bias, hlt]⟩

/-- C2 witness: a concrete input with 97 < 100. -/
theorem C2_bias_rule_witness :
    ((detect_structure_and_liquidity [⟨110, 90, 100⟩] [⟨98, 98, 98⟩] [] [⟨97, 97, 97⟩]).tf1D.bias
        = some "discount_LONG" ↔ latest_price [⟨97, 97, 97⟩] < midline [⟨110, 90, 100⟩]) ∧
    ((detect_structure_and_liquidity [⟨110, 90, 100⟩] [⟨98, 98, 98⟩] [] [⟨97, 97, 97⟩]).tf1D.bias
        = some "premium_SHORT" ↔ ¬ latest_price [⟨97, 97, 97⟩] < midline [⟨110, 90, 100⟩]) ∧
    (latest_price [⟨97, 97, 97⟩] = midline [⟨110, 90, 100⟩] →
      (detect_structure_and_liquidity [⟨110, 90, 100⟩] [⟨98, 98, 98⟩] [] [⟨97, 97, 97⟩]).tf1D.bias
        = some "premium_SHORT") :=
  C2_bias_rule [⟨110, 90, 100⟩] [⟨98, 98, 98⟩] [] [⟨97, 97, 97⟩] (by simp) (by simp)

/-- C3: with non-empty 15m and 4h sequences, the returned `trend` is
"bullish_HH_HL" exactly when the last 15m close is strictly above the median
of the 4h closes, "bearish_LH_LL" otherwise, and a tie yields
"bearish_LH_LL". -/
theorem C3_trend_rule (ohlcv_1d ohlcv_4h ohlcv_1h ohlcv_15m : List Candle)
    (h4 : ohlcv_4h ≠ []) (hm : ohlcv_15m ≠ []) :
    ((detect_structure_and_liquidity ohlcv_1d ohlcv_4h ohlcv_1h ohlcv_15m).tf1D.trend
        = some "bullish_HH_HL" ↔ latest_price ohlcv_15m > median_4h ohlcv_4h) ∧
    ((detect_structure_and_liquidity ohlcv_1d ohlcv_4h ohlcv_1h ohlcv_15m).tf1D.trend
        = some "bearish_LH_LL" ↔ ¬ latest_price ohlcv_15m > median_4h ohlcv_4h) ∧
    (latest_price ohlcv_15m = median_4h ohlcv_4h →
      (detect_structure_and_liquidity ohlcv_1d ohlcv_4h ohlcv_1h ohlcv_15m).tf1D.trend
        = some "bearish_LH_LL") := by
  have ht : (detect_structure_and_liquidity ohlcv_1d ohlcv_4h ohlcv_1h ohlcv_15m).tf1D.trend
      = some (trend_val ohlcv_4h ohlcv_15m) := rfl
  rw [ht]
  by_cases hgt : latest_price ohlcv_15m > median_4h ohlcv_4h
  · refine ⟨by simp [trend_val, hgt], by simp [trend_val, hgt], fun he => ?_⟩
    exact absurd he (by simpa using ne_of_gt hgt)
  · exact ⟨by simp [trend_val, hgt], by simp [trend_val, hgt], fun _ => by simp [trend_val, hgt]⟩

/-- C3 witness: a concrete input with 97 not above the 4h median 98. -/
theorem C3_trend_rule_witness :
    ((detect_structure_and_liquidity [⟨110, 90, 100⟩] [⟨98, 98, 98⟩] [] [⟨97, 97, 97⟩]).tf1D.trend
        = some "bullish_HH_HL" ↔ latest_price [⟨97, 97, 97⟩] > median_4h [⟨98, 98, 98⟩]) ∧
    ((detect_structure_and_liquidity [⟨110, 90, 100⟩] [⟨98, 98, 98⟩] [] [⟨97, 97, 97⟩]).tf1D.trend
        = some "bearish_LH_LL" ↔ ¬ latest_price [⟨97, 97, 97⟩] > median_4h [⟨98, 98, 98⟩]) ∧
    (latest_price [⟨97, 97, 97⟩] = median_4h [⟨98, 98, 98⟩] →
      (detect_structure_and_liquidity [⟨110, 90, 100⟩] [⟨98, 98, 98⟩] [] [⟨97, 97, 97⟩]).tf1D.trend
        = some "bearish_LH_LL") :=
  C3_trend_rule [⟨110, 90, 100⟩] [⟨98, 98, 98⟩] [] [⟨97, 97, 97⟩] (by simp) (by simp)

/-- C4: in every returned result, the four timeframe contexts carry the same
`bos` value, which is a function of `trend_val` alone: "up" when the trend
string contains "bullish", "down" when it is "bearish_LH_LL". -/
theorem C4_bos_uniform (ohlcv_1d ohlcv_4h ohlcv_1h ohlcv_15m : List Candle) :
    ((detect_structure_and_liquidity ohlcv_1d ohlcv_4h ohlcv_1h ohlcv_15m).tf4H.bos
        = (detect_structure_and_liquidity ohlcv_1d ohlcv_4h ohlcv_1h ohlcv_15m).tf1D.bos) ∧
    ((detect_structure_and_liquidity ohlcv_1d ohlcv_4h ohlcv_1h ohlcv_15m).tf1H.bos
        = (detect_structure_and_liquidity ohlcv_1d ohlcv_4h ohlcv_1h ohlcv_15m).tf1D.bos) ∧
    ((detect_structure_and_liquidity ohlcv_1d ohlcv_4h ohlcv_1h ohlcv_15m).tf15m.bos
        = (detect_structure_and_liquidity ohlcv_1d ohlcv_4h ohlcv_1h ohlcv_15m).tf1D.bos) ∧
    ((detect_structure_and_liquidity ohlcv_1d ohlcv_4h ohlcv_1h ohlcv_15m).tf1D.bos
        = some (bosOf (trend_val ohlcv_4h ohlcv_15m))) ∧
    ((detect_structure_and_liquidity ohlcv_1d ohlcv_4h ohlcv_1h ohlcv_15m).tf1D.trend
        = some (trend_val ohlcv_4h ohlcv_15m)) ∧
    bosOf "bullish_HH_HL" = "up" ∧ bosOf "bearish_LH_LL" = "down" :=
  ⟨rfl, rfl, rfl, rfl, rfl, rfl, rfl⟩

/-- C10: in every returned result, the 4H context and the 1H context each
hold exactly one order-block zone, and its type label is "bullish"
whatever the inputs (hence whatever the trend). -/
theorem C10_ob_always_bullish (ohlcv_1d ohlcv_4h ohlcv_1h ohlcv_15m : List Candle) :
    ((detect_structure_and_liquidity ohlcv_1d ohlcv_4h ohlcv_1h ohlcv_15m).tf4H.ob_zones.map
        ObZone.type = ["bullish"]) ∧
    ((detect_structure_and_liquidity ohlcv_1d ohlcv_4h ohlcv_1h ohlcv_15m).tf1H.ob_zones.map
        ObZone.type = ["bullish"]) :=
  ⟨rfl, rfl⟩

/-- A heatmap entry that is malformed in the claim's sense: its "price" key
is missing. -/
def missingPriceEntry : Entry :=
  { side := some (.str "long"), price := none, size := some (.num 5) }

/-- C5 counterexample: an entry with a missing "price" field is NOT skipped.
`i.get("price",0)` substitutes the default 0 and `float(0)` succeeds, so the
entry is appended as a cluster with price 0 — the claim's "every malformed
entry (one with a missing or non-numeric side, price, or size field) is
skipped" is false at this input. -/
theorem C5_missing_field_not_skipped :
    (fetch_coinglass_clusters "BTC/USDT" (.ok 200 [missingPriceEntry])).heatmap.N3
        = [⟨"long", 0, 5⟩] ∧
    (fetch_coinglass_clusters "BTC/USDT" (.ok 200 [missingPriceEntry])).heatmap.N3
        ≠ [] :=
  ⟨rfl, by simp [fetch_coinglass_clusters, parseEntry, floatOf, missingPriceEntry]⟩

/-- C5 amended: among the first three entries, exactly those whose price or
size value fails numeric conversion are skipped; a missing side, price or
size key never causes a skip (side defaults to "long", price and size to 0),
and the remaining entries are still processed into clusters in order. -/
theorem C5_parse_amended (symbol : String) (data : List Entry) :
    (fetch_coinglass_clusters symbol (.ok 200 data)).heatmap.N3
        = ((data.take 3).filter validEntry).map entryCluster :=
  by simp [fetch_coinglass_clusters, filterMap_parseEntry]

/-- C6: the heatmap fetcher always returns; on a raising call or body parse
(`HttpResult.exn`) or on any non-200 status the heatmap N3 cluster list is
empty. -/
theorem C6_degrades_to_empty (symbol : String) (status : Nat) (data : List Entry)
    (hs : status ≠ 200) :
    (fetch_coinglass_clusters symbol .exn).heatmap.N3 = [] ∧
    (fetch_coinglass_clusters symbol (.ok status data)).heatmap.N3 = [] :=
  ⟨rfl, by simp [fetch_coinglass_clusters, hs]⟩

/-- C6 witness: HTTP 500 with a non-empty body yields an empty cluster list. -/
theorem C6_degrades_to_empty_witness :
    (fetch_coinglass_clusters "BTC/USDT" .exn).heatmap.N3 = [] ∧
    (fetch_coinglass_clusters "BTC/USDT"
        (.ok 500 [{ side := some (.str "short"), price := some (.num 3),
                    size := some (.num 7) }])).heatmap.N3 = [] :=
  C6_degrades_to_empty "BTC/USDT" 500
    [{ side := some (.str "short"), price := some (.num 3), size := some (.num 7) }]
    (by decide)

/-- C7: when the body holds at least three entries that all parse, exactly
the first three are mapped into clusters, in input order. -/
theorem C7_first_three (symbol : String) (data : List Entry)
    (hv : ∀ e ∈ data, validEntry e = true) (hlen : 3 ≤ data.length) :
    (fetch_coinglass_clusters symbol (.ok 200 data)).heatmap.N3
        = (data.take 3).map entryCluster ∧
    (fetch_coinglass_clusters symbol (.ok 200 data)).heatmap.N3.length = 3 := by
  have hfilter : (data.take 3).filter validEntry = data.take 3 :=
    List.filter_eq_self.mpr fun e he => hv e (List.take_subset 3 data he)
  have hmain : (fetch_coinglass_clusters symbol (.ok 200 data)).heatmap.N3
      = (data.take 3).map entryCluster := by
    simp [fetch_coinglass_clusters, filterMap_parseEntry, hfilter]
  refine ⟨hmain, ?_⟩
  rw [hmain]
  simp [List.length_take, Nat.min_eq_left hlen]

/-- Five valid heatmap entries. -/
def fiveEntries : List Entry :=
  [ { side := some (.str "long"), price := some (.num 10), size := some (.num 1) },
    { side := some (.str "short"), price := some (.num 20), size := some (.num 2) },
    { side := some (.str "long"), price := some (.num 30), size := some (.num 3) },
    { side := some (.str "short"), price := some (.num 40), size := some (.num 4) },
    { side := some (.str "long"), price := some (.num 50), size := some (.num 5) } ]

/-- C7 witness: five valid entries yield exactly the first three, in order. -/
theorem C7_first_three_witness :
    (fetch_coinglass_clusters "BTC/USDT" (.ok 200 fiveEntries)).heatmap.N3
        = (fiveEntries.take 3).map entryCluster ∧
    (fetch_coinglass_clusters "BTC/USDT" (.ok 200 fiveEntries)).heatmap.N3.length = 3 :=
  C7_first_three "BTC/USDT" fiveEntries (by decide) (by decide)

/-- C8: for every UTC hour below 24, the session classifier returns "NY"
exactly on [12,20), "LDN" exactly on [7,12) and "ASIA" otherwise; in
particular hour 12 gives "NY", 7 gives "LDN", 6 and 20 give "ASIA". -/
theorem C8_session_rule (h : Nat) (hh : h < 24) :
    (detect_session h = "NY" ↔ 12 ≤ h ∧ h < 20) ∧
    (detect_session h = "LDN" ↔ 7 ≤ h ∧ h < 12) ∧
    (detect_session h = "ASIA" ↔ ¬((12 ≤ h ∧ h < 20) ∨ (7 ≤ h ∧ h < 12))) ∧
    detect_session 12 = "NY" ∧ detect_session 7 = "LDN" ∧
    detect_session 6 = "ASIA" ∧ detect_session 20 = "ASIA" := by
  revert h
  decide

/-- C8 witness: hour 13. -/
theorem C8_session_rule_witness :
    (detect_session 13 = "NY" ↔ 12 ≤ 13 ∧ 13 < 20) ∧
    (detect_session 13 = "LDN" ↔ 7 ≤ 13 ∧ 13 < 12) ∧
    (detect_session 13 = "ASIA" ↔ ¬((12 ≤ 13 ∧ 13 < 20) ∨ (7 ≤ 13 ∧ 13 < 12))) ∧
    detect_session 12 = "NY" ∧ detect_session 7 = "LDN" ∧
    detect_session 6 = "ASIA" ∧ detect_session 20 = "ASIA" :=
  C8_session_rule 13 (by decide)

/-- The daily candles of the end-to-end scenario: highs [100,110,105],
lows [90,95,92]. -/
def c9_1d : List Candle := [⟨100, 90, 95⟩, ⟨110, 95, 100⟩, ⟨105, 92, 96⟩]

/-- The 4h candles of the end-to-end scenario: closes [98,102,99,101]. -/
def c9_4h : List Candle :=
  [⟨98, 98, 98⟩, ⟨102, 102, 102⟩, ⟨99, 99, 99⟩, ⟨101, 101, 101⟩]

/-- The 15m candles of the end-to-end scenario: last close 97. -/
def c9_15m : List Candle := [⟨97, 97, 97⟩]

/-- C9: the end-to-end scenario evaluates as the spec predicts:
swing_high 110, swing_low 90, midline 100, median_4h 100,
bias "discount_LONG", trend "bearish_LH_LL", bos "down". -/
theorem C9_scenario :
    (detect_structure_and_liquidity c9_1d c9_4h [] c9_15m).tf1D.swing_high = some 110 ∧
    (detect_structure_and_liquidity c9_1d c9_4h [] c9_15m).tf1D.swing_low = some 90 ∧
    (detect_structure_and_liquidity c9_1d c9_4h [] c9_15m).tf1D.midline_50 = some 100 ∧
    median_4h c9_4h = 100 ∧
    (detect_structure_and_liquidity c9_1d c9_4h [] c9_15m).tf1D.bias
        = some "discount_LONG" ∧
    (detect_structure_and_liquidity c9_1d c9_4h [] c9_15m).tf1D.trend
        = some "bearish_LH_LL" ∧
    (detect_structure_and_liquidity c9_1d c9_4h [] c9_15m).tf1D.bos = some "down" := by
  have h1 : swing_high c9_1d = 110 := by
    norm_num [swing_high, c9_1d, maxList, max_def]
  have h2 : swing_low c9_1d = 90 := by
    norm_num [swing_low, c9_1d, minList, min_def]
  have h3 : midline c9_1d = 100 := by
    unfold midline; rw [h1, h2]; norm_num
  have h4 : median_4h c9_4h = 100 := by
    norm_num [median_4h, c9_4h, median, List.insertionSort, List.orderedInsert]
  have hlp : latest_price c9_15m = 97 := rfl
  have htrend : trend_val c9_4h c9_15m = "bearish_LH_LL" := by
    unfold trend_val; rw [hlp, h4]; norm_num
  have hbias : bias c9_1d c9_15m = "discount_LONG" := by
    unfold bias; rw [hlp, h3]; norm_num
  have hbos : bosOf "bearish_LH_LL" = "down" := by decide
  refine ⟨?_, ?_, ?_, h4, ?_, ?_, ?_⟩
  · show some (swing_high c9_1d) = some 110
    rw [h1]
  · show some (swing_low c9_1d) = some 90
    rw [h2]
  · show some (midline c9_1d) = some 100
    rw [h3]
  · show some (bias c9_1d c9_15m) = some "discount_LONG"
    rw [hbias]
  · show some (trend_val c9_4h c9_15m) = some "bearish_LH_LL"
    rw [htrend]
  · show some (bosOf (trend_val c9_4h c9_15m)) = some "down"
    rw [htrend, hbos]
